import Mathlib

/-!
Verification of the afterglow pinball LED firmware
(`src/afterglow_arduino/afterglow_arduino.ino`) against its
natural-language specification.

The realtime core of the firmware is shallowly embedded here:

* `updateMx`, `updateCol`     — the brightness integrator (lines 617-669);
* `decodeCol`                 — the one-hot column decode inside
                                `ISR(TIMER1_COMPA_vect)` (lines 401-435);
* `updateValid`, `tickValid`  — the debounce / framing validator
                                (lines 938-970) together with the ISR's
                                unconditional storing of the last raw
                                sample (lines 457-459);
* `tick`                      — the integrator-relevant portion of one
                                ISR invocation (lines 390-459);
* `driveLampOn`               — the per-lamp PWM decision of
                                `driveLampMatrix` (lines 744-777);
* `glowStep`, `maxSubcycleOf`, `applyCfg` — the derived fixed-point
                                brightness model (lines 973-999);
* `calculateCRC32`, `loadCfgValid`, `setDefaultCfg`, `startup`,
  `receiveCfg`                — configuration integrity handling
                                (lines 245-259 and 1002-1164).

Machine integers are modelled as `Nat` with explicit `% 2 ^ w`
truncation exactly where the AVR C code truncates (16-bit stores and
16-bit unsigned arithmetic), and guarded additions/subtractions are
modelled with the same guards the C code uses.
-/

/-- AFTERGLOW_CFG_VERSION from the source (line 56). -/
def AFTERGLOW_CFG_VERSION : Nat := 1

/-- ORIG_INT: original matrix update interval in microseconds (line 68). -/
def ORIG_INT : Nat := 2000

/-- TTAG_INT_A: local tick interval, timing config A, in microseconds (line 71). -/
def TTAG_INT_A : Nat := 250

/-- TTAG_INT_B: local tick interval, timing config B, in microseconds (line 77). -/
def TTAG_INT_B : Nat := 500

/-- ORIG_CYCLES_A: sub-cycles per original interval in config A (line 74). -/
def ORIG_CYCLES_A : Nat := ORIG_INT / TTAG_INT_A

/-- ORIG_CYCLES_B: sub-cycles per original interval in config B (line 80). -/
def ORIG_CYCLES_B : Nat := ORIG_INT / TTAG_INT_B

/-- NUM_COL: number of lamp matrix columns (line 83). -/
def NUM_COL : Nat := 8

/-- NUM_ROW: number of lamp matrix rows (line 86). -/
def NUM_ROW : Nat := 8

/-- DEFAULT_GLOWDUR: default glow duration in milliseconds (line 89). -/
def DEFAULT_GLOWDUR : Nat := 140

/-- GLOWDUR_CFG_SCALE: glow duration scaling in the configuration (line 92). -/
def GLOWDUR_CFG_SCALE : Nat := 10

/-- DEFAULT_BRIGHTNESS: default maximum lamp brightness (line 95). -/
def DEFAULT_BRIGHTNESS : Nat := 7

/-- SINGLE_UPDATE_CONS: consistent samples required for a matrix update (line 65). -/
def SINGLE_UPDATE_CONS : Nat := 2

/-- The acknowledge reply string AG_CMD_ACK (line 159). -/
def AG_CMD_ACK : String := "AGCACK"

/-- The negative-acknowledge reply string AG_CMD_NACK (line 162). -/
def AG_CMD_NACK : String := "AGCNACK"

/-- Embedding of `updateMx` (lines 617-643): one asymmetric saturating
integrator step on a single 16-bit brightness counter.  The C code adds
into a `uint16_t`, so the addition branch carries the 16-bit truncation;
the guard `v < 65535 - step` (evaluated over exact integers in C, since
the literal `65535` has a 32-bit type on AVR) makes the truncation a
no-op, which the theorems below prove rather than assume.  `step` is a
`uint16_t` in the source, hence `step ≤ 65535` wherever a theorem needs
the Nat subtraction `65535 - step` to coincide with the C expression. -/
def updateMx (v : Nat) (b : Bool) (step : Nat) : Nat :=
  if b then
    if v < 65535 - step then (v + step) % 65536 else 65535
  else
    if v > step then v - step else 0

/-- Iterated application of `updateMx` with a fixed direction and step:
`updateMxIter step on k v` is the counter after `k` consecutive accepted
updates starting from `v`. -/
def updateMxIter (step : Nat) (b : Bool) : Nat → Nat → Nat
  | 0, v => v
  | k + 1, v => updateMx (updateMxIter step b k v) b step

/-- Embedding of `updateCol` (lines 646-669): update the 8 row counters
of column `col` of the matrix, using bit `r` of `rowMask` as the on/off
command for row `r` (the row mask handed to `updateCol` has already been
inverted by the ISR, so a set bit means lamp ON).  The paranoia bounds
check on `col` (line 649) makes the call a no-op for `col ≥ 8`. -/
def updateCol (steps : Nat → Nat → Nat) (m : Nat → Nat → Nat)
    (col rowMask : Nat) : Nat → Nat → Nat :=
  if 8 ≤ col then m
  else fun c r =>
    if c = col ∧ r < 8 then updateMx (m c r) (rowMask.testBit r) (steps c r)
    else m c r

/-- Embedding of the column-mask decode switch in the ISR
(lines 407-435): a one-hot mask maps to its column index, any other
mask yields no valid column. -/
def decodeCol (mask : Nat) : Option Nat :=
  if mask = 0x01 then some 0
  else if mask = 0x02 then some 1
  else if mask = 0x04 then some 2
  else if mask = 0x08 then some 3
  else if mask = 0x10 then some 4
  else if mask = 0x20 then some 5
  else if mask = 0x40 then some 6
  else if mask = 0x80 then some 7
  else none

/-- State of the column validator: the static locals of `updateValid`
(`sConsistentSamples`, `sLastUpdColMask`, lines 940-941) together with
the globals `sLastColMask` / `sLastRowMask` (lines 180-181) that the
ISR stores after every tick. -/
structure VState where
  cons : Nat
  lastUpd : Nat
  lastCol : Nat
  lastRow : Nat
deriving DecidableEq, Repr

/-- Embedding of `updateValid` (lines 938-970): returns the validity
verdict together with the updated `sConsistentSamples` /
`sLastUpdColMask` state.  The consistency counter is a byte and
saturates at 255; with `SINGLE_UPDATE_CONS = 2` the acceptance test is
`cons ≥ 1`. -/
def updateValid (s : VState) (c r : Nat) : Bool × VState :=
  if c ≠ s.lastUpd then
    let cons :=
      if c ≠ s.lastCol ∨ r ≠ s.lastRow then 0
      else if s.cons < 255 then s.cons + 1
      else s.cons
    if SINGLE_UPDATE_CONS - 1 ≤ cons then
      (true, { s with cons := cons, lastUpd := c })
    else
      (false, { s with cons := cons })
  else
    (false, s)

/-- One validator tick: `updateValid` followed by the ISR's
unconditional storing of the raw sample into `sLastColMask` /
`sLastRowMask` (lines 457-459). -/
def tickValid (s : VState) (c r : Nat) : Bool × VState :=
  let p := updateValid s c r
  (p.1, { p.2 with lastCol := c, lastRow := r })

/-- Full acceptance of a sample by one ISR tick: the column mask must
decode as one-hot (line 432 sets `validInput = false` otherwise) and
the debounce check must pass (line 439). -/
def accept (s : VState) (c r : Nat) : Bool :=
  (decodeCol c).isSome && (tickValid s c r).1

/-- Run the validator over a list of (column mask, row mask) samples,
returning the per-tick acceptance flags and the final state. -/
def runValid (s : VState) : List (Nat × Nat) → List Bool × VState
  | [] => ([], s)
  | (c, r) :: rest =>
    let f := accept s c r
    let p := runValid (tickValid s c r).2 rest
    (f :: p.1, p.2)

/-- State touched by the integrator-relevant part of one ISR tick:
the lamp matrix `sMatrixState` and the validator state. -/
structure TickState where
  mx : Nat → Nat → Nat
  vs : VState

/-- Column index the ISR computes: `inCol` is the decoded column, or
`NUM_COL` (= 8) when the decode fails (line 406). -/
def inColOf (mask : Nat) : Nat := (decodeCol mask).getD 8

/-- Embedding of the integrator-relevant portion of one
`ISR(TIMER1_COMPA_vect)` invocation (lines 390-459): split the 16-bit
input sample into the column mask (high byte) and the inverted row mask
(low byte, active-low in the raw sample), decode the column, run the
debounce validator (which is invoked and updates its state regardless of
the decode verdict, line 439), and update the matrix column only when
both checks pass (lines 443-446). -/
def tick (steps : Nat → Nat → Nat) (s : TickState) (inData : Nat) : TickState :=
  let inColMask := (inData >>> 8) % 256
  let inRowMask := 255 - inData % 256
  let valid := (decodeCol inColMask).isSome && (tickValid s.vs inColMask inRowMask).1
  { mx := if valid then updateCol steps s.mx (inColOf inColMask) inRowMask else s.mx
    vs := (tickValid s.vs inColMask inRowMask).2 }

/-- Per-lamp PWM decision of `driveLampMatrix` (lines 750-777): with
counter `v`, configured maximum subcycle `m` and `N` sub-cycles per
original column period, the lamp is driven ON in sub-cycle `c` iff the
counter is nonzero and the clamped scaled counter is at least `c`. -/
def driveLampOn (N v m c : Nat) : Bool :=
  if v = 0 then false
  else
    let s0 := v / (65536 / N)
    let s1 := if m < s0 then m else s0
    decide (c ≤ s1)

/-- Number of the `N` sub-cycles of one full window (`colCycle`
ranging over `0..N-1`) in which `driveLampMatrix` turns the lamp ON. -/
def driveLampOnCount (N v m : Nat) : Nat :=
  (List.range N).countP (fun c => driveLampOn N v m c)

/-- Per-lamp glow step computed by `applyCfg` (lines 985-987) from the
glow-duration code `d` (a configuration byte): `glowDur = d *
GLOWDUR_CFG_SCALE`; for nonzero duration the step is
`(uint16_t)(65535 / ((glowDur * 1000) / ORIG_INT)) * NUM_COL`, a
multiplication carried out in 16-bit unsigned arithmetic on AVR and
stored into a `uint16_t`, hence the `% 65536`; a zero duration yields
the maximal step `0xffff`. -/
def glowStep (d : Nat) : Nat :=
  let glowDur := d * GLOWDUR_CFG_SCALE
  if glowDur > 0 then 65535 / (glowDur * 1000 / ORIG_INT) * NUM_COL % 65536
  else 0xffff

/-- Per-lamp maximum subcycle computed by `applyCfg` (lines 990-992)
from the brightness code: shifted right by `8/ORIG_CYCLES-1` bits
depending on the active timing mode. -/
def maxSubcycleOf (modeA : Bool) (b : Nat) : Nat :=
  if modeA then b >>> (8 / ORIG_CYCLES_A - 1) else b >>> (8 / ORIG_CYCLES_B - 1)

/-- Derived brightness model computed by `applyCfg` (lines 973-999):
per-lamp glow steps and maximum subcycles, as flat lists over the 64
lamps in the same order as the configuration grids. -/
def applyCfgTables (modeA : Bool) (glowDur brightness : List Nat) :
    List Nat × List Nat :=
  (glowDur.map glowStep, brightness.map (maxSubcycleOf modeA))

/-- Embedding of `AFTERGLOW_CFG_t` (lines 195-202): version, reserved
field, the 64 per-lamp glow-duration bytes, the 64 per-lamp maximum
brightness bytes, and the CRC32 checksum. -/
structure AFTERGLOW_CFG_t where
  version : Nat
  res : Nat
  lampGlowDur : List Nat
  lampBrightness : List Nat
  crc : Nat
deriving DecidableEq, Repr

/-- Process one byte into a running CRC32: the inner loop of
`calculateCRC32` (lines 1076-1088), with the `uint32_t` left shift
truncated modulo `2 ^ 32`. -/
def crcByte (crc c : Nat) : Nat :=
  (List.range 8).foldl
    (fun acc k =>
      let bit := acc.testBit 31 != c.testBit (7 - k)
      let acc2 := acc * 2 % 4294967296
      if bit then acc2 ^^^ 0x04c11db7 else acc2)
    crc

/-- Embedding of `calculateCRC32` (lines 1070-1091) over a byte list. -/
def calculateCRC32 (data : List Nat) : Nat :=
  data.foldl crcByte 0xffffffff

/-- Byte serialization of the CRC-covered region of `AFTERGLOW_CFG_t`
(everything up to but excluding the `crc` field), in AVR little-endian
struct layout: 132 bytes when the two grids hold 64 bytes each. -/
def cfgBytes (c : AFTERGLOW_CFG_t) : List Nat :=
  [c.version % 256, c.version / 256 % 256, c.res % 256, c.res / 256 % 256]
    ++ c.lampGlowDur ++ c.lampBrightness

/-- Reconstruction of an `AFTERGLOW_CFG_t` from its 136-byte serialized
form (the byte stream received by `receiveCfg` is copied byte-for-byte
over the struct, lines 1108-1126). -/
def parseCfg (bytes : List Nat) : AFTERGLOW_CFG_t :=
  { version := bytes.getD 0 0 + 256 * bytes.getD 1 0
    res := bytes.getD 2 0 + 256 * bytes.getD 3 0
    lampGlowDur := (bytes.drop 4).take 64
    lampBrightness := (bytes.drop 68).take 64
    crc := bytes.getD 132 0 + 256 * bytes.getD 133 0
      + 65536 * bytes.getD 134 0 + 16777216 * bytes.getD 135 0 }

/-- Validity check performed by `loadCfg` (lines 1047-1060): the
version field must equal `AFTERGLOW_CFG_VERSION` and the CRC32 of the
record (excluding the checksum field itself) must match the stored
checksum. -/
def loadCfgValid (e : AFTERGLOW_CFG_t) : Bool :=
  e.version = AFTERGLOW_CFG_VERSION && calculateCRC32 (cfgBytes e) = e.crc

/-- The compiled-in default configuration before its checksum is
filled in (`setDefaultCfg`, lines 1004-1016): all 64 glow durations
set to `DEFAULT_GLOWDUR / GLOWDUR_CFG_SCALE` (= 14), all 64 brightness
codes set to `DEFAULT_BRIGHTNESS` (= 7), the current configuration
version, reserved field and checksum zeroed by the `memset`. -/
def defaultCfgBase : AFTERGLOW_CFG_t :=
  { version := AFTERGLOW_CFG_VERSION
    res := 0
    lampGlowDur := List.replicate 64 (DEFAULT_GLOWDUR / GLOWDUR_CFG_SCALE)
    lampBrightness := List.replicate 64 DEFAULT_BRIGHTNESS
    crc := 0 }

/-- Embedding of `setDefaultCfg` (lines 1002-1021): the default
configuration with its checksum computed over the record itself
(lines 1018-1020). -/
def setDefaultCfg : AFTERGLOW_CFG_t :=
  { defaultCfgBase with crc := calculateCRC32 (cfgBytes defaultCfgBase) }

/-- Embedding of the configuration-load portion of `setup`
(lines 245-255): given the record `e` found in EEPROM, return the
configuration made active and the EEPROM contents after startup.  An
invalid record (wrong version or checksum) is replaced by the default
configuration, which is also written back to EEPROM
(`setDefaultCfg` + `saveCfgToEEPROM`). -/
def startup (e : AFTERGLOW_CFG_t) : AFTERGLOW_CFG_t × AFTERGLOW_CFG_t :=
  if loadCfgValid e then (e, e) else (setDefaultCfg, setDefaultCfg)

/-- System state touched by a live configuration write: the active
configuration `sCfg`, the derived tables `sGlowSteps` /
`sMaxSubcycle`, and the EEPROM contents. -/
structure SysState where
  sCfg : AFTERGLOW_CFG_t
  sGlowSteps : List Nat
  sMaxSubcycle : List Nat
  eeprom : AFTERGLOW_CFG_t
deriving DecidableEq, Repr

/-- Embedding of `receiveCfg` (lines 1103-1164).  `stream` is the
complete sequence of bytes the sender ever makes available on the
serial port.  The receive loop (lines 1113-1127) has no timeout and
only exits once `sizeof(AFTERGLOW_CFG_t)` = 136 bytes have arrived, so
a shorter stream means the call never completes (it re-sends the
data-ready prompt forever); this divergence is modelled as `none`.
When 136 bytes arrive, the CRC32 over the first 132 received bytes is
compared with the received checksum field: on a match the record is
installed, `applyCfg` recomputes the derived tables, the record is
saved to EEPROM and `AG_CMD_ACK` is sent; on a mismatch the state is
untouched and `AG_CMD_NACK` is sent. -/
def receiveCfg (modeA : Bool) (st : SysState) (stream : List Nat) :
    Option (SysState × String) :=
  if stream.length < 136 then none
  else
    let bytes := stream.take 136
    let cfg := parseCfg bytes
    if calculateCRC32 (bytes.take 132) = cfg.crc then
      some ({ sCfg := cfg
              sGlowSteps := (applyCfgTables modeA cfg.lampGlowDur cfg.lampBrightness).1
              sMaxSubcycle := (applyCfgTables modeA cfg.lampGlowDur cfg.lampBrightness).2
              eeprom := cfg },
            AG_CMD_ACK)
    else
      some (st, AG_CMD_NACK)

/-! ## Helper lemmas -/

/-- Counting the sub-cycles `c < n` with `c ≤ s`. -/
lemma countP_range_le (s n : Nat) :
    (List.range n).countP (fun c => decide (c ≤ s)) = min (s + 1) n := by
  induction n with
  | zero => simp
  | succ n ih =>
    rw [List.range_succ, List.countP_append, ih]
    by_cases h : n ≤ s <;>
      simp [List.countP_cons, List.countP_nil, h] <;> omega

/-- A run of `j` accepted ON updates below the saturation band adds
`j` glow steps exactly (the 16-bit truncation in `updateMx` never
fires thanks to the guard). -/
lemma updateMxIter_on (S : Nat) (hS : S ≤ 65535) :
    ∀ j v, v + j * S < 65535 → updateMxIter S true j v = v + j * S := by
  intro j
  induction j with
  | zero => intro v _; simp [updateMxIter]
  | succ n ih =>
    intro v h
    rw [Nat.succ_mul] at h ⊢
    have hn : v + n * S < 65535 := by omega
    rw [updateMxIter, ih v hn, updateMx]
    have hlt : v + n * S < 65535 - S := by omega
    rw [if_pos rfl, if_pos hlt, Nat.mod_eq_of_lt (by omega), Nat.add_assoc]

/-- A run of `j` accepted OFF updates above the zero band subtracts
`j` glow steps exactly. -/
lemma updateMxIter_off (S : Nat) :
    ∀ j v, j * S < v → updateMxIter S false j v = v - j * S := by
  intro j
  induction j with
  | zero => intro v _; simp [updateMxIter]
  | succ n ih =>
    intro v h
    rw [Nat.succ_mul] at h ⊢
    have hn : n * S < v := by omega
    rw [updateMxIter, ih v hn, updateMx]
    have hgt : v - n * S > S := by omega
    rw [if_neg (by simp), if_pos hgt]
    omega

/-- Ceil-division facts for the saturation count `⌈65535 / S⌉`,
written as `(65535 + S - 1) / S`: the count times the step reaches
65535, one fewer does not. -/
lemma ceil_saturation (S : Nat) (hS : 1 ≤ S) :
    1 ≤ (65535 + S - 1) / S ∧
    65535 ≤ (65535 + S - 1) / S * S ∧
    ((65535 + S - 1) / S - 1) * S < 65535 := by
  have hdm := Nat.div_add_mod (65535 + S - 1) S
  have hm : (65535 + S - 1) % S < S := Nat.mod_lt _ (by omega)
  set q := (65535 + S - 1) / S with hq
  set m := (65535 + S - 1) % S with hmdef
  have hq1 : 1 ≤ q := by
    rcases Nat.eq_zero_or_pos q with h0 | h1
    · rw [h0] at hdm; omega
    · exact h1
  have hqS : q * S = S * q := Nat.mul_comm _ _
  have hsub : (q - 1) * S + S = q * S := by
    have hq2 : q - 1 + 1 = q := by omega
    calc (q - 1) * S + S = (q - 1 + 1) * S := by rw [Nat.add_mul, Nat.one_mul]
    _ = q * S := by rw [hq2]
  refine ⟨hq1, ?_, ?_⟩ <;> omega

/-! ## Claim theorems -/

/-- C4: for every step `S` with `1 ≤ S ≤ 65535` (glow steps are
`uint16_t`), starting from 0 the counter reaches exactly 65535 after
`⌈65535 / S⌉` consecutive ON updates and further ON updates leave it
there; starting from 65535 it reaches exactly 0 after `⌈65535 / S⌉`
consecutive OFF updates and further OFF updates leave it there; and no
update ever takes a counter value outside `[0, 65535]` (the addition
branch never actually wraps modulo 2^16, the subtraction branch never
underflows). -/
theorem updateMx_saturation (S : Nat) (hS1 : 1 ≤ S) (hS2 : S ≤ 65535) :
    updateMxIter S true ((65535 + S - 1) / S) 0 = 65535 ∧
    updateMx 65535 true S = 65535 ∧
    updateMxIter S false ((65535 + S - 1) / S) 65535 = 0 ∧
    updateMx 0 false S = 0 ∧
    (∀ v b, v ≤ 65535 → updateMx v b S ≤ 65535) := by
  obtain ⟨hq1, hsat, hbelow⟩ := ceil_saturation S hS1
  set q := (65535 + S - 1) / S with hq
  have hqsplit : q = (q - 1) + 1 := by omega
  have hmul : (q - 1) * S + S = q * S := by
    have hq2 : q - 1 + 1 = q := by omega
    calc (q - 1) * S + S = (q - 1 + 1) * S := by rw [Nat.add_mul, Nat.one_mul]
    _ = q * S := by rw [hq2]
  refine ⟨?_, ?_, ?_, ?_, ?_⟩
  · rw [hqsplit, updateMxIter,
      updateMxIter_on S hS2 (q - 1) 0 (by omega), updateMx]
    rw [if_pos rfl, if_neg (by omega)]
  · rw [updateMx, if_pos rfl, if_neg (by omega)]
  · rw [hqsplit, updateMxIter,
      updateMxIter_off S (q - 1) 65535 (by omega), updateMx]
    rw [if_neg (by simp), if_neg (by omega)]
  · rw [updateMx, if_neg (by simp), if_neg (by omega)]
  · intro v b hv
    have hmod : (v + S) % 65536 < 65536 := Nat.mod_lt _ (by norm_num)
    unfold updateMx
    split <;> split <;> omega

/-- C4 witness: at step `S = 1000` the theorem applies, the rise takes
`⌈65535 / 1000⌉` updates, and a mid-range counter stays in range. -/
theorem updateMx_saturation_witness :
    updateMxIter 1000 true ((65535 + 1000 - 1) / 1000) 0 = 65535 ∧
    updateMxIter 1000 false ((65535 + 1000 - 1) / 1000) 65535 = 0 ∧
    updateMx 30000 true 1000 ≤ 65535 :=
  ⟨(updateMx_saturation 1000 (by norm_num) (by norm_num)).1,
   (updateMx_saturation 1000 (by norm_num) (by norm_num)).2.2.1,
   (updateMx_saturation 1000 (by norm_num) (by norm_num)).2.2.2.2 30000 true
     (by norm_num)⟩

/-- C2 counterexample: with step `S = 65535 / 100 = 655`, 100
consecutive accepted ON updates starting from 0 do NOT bring the
counter to 65535 (they bring it to 65500; the final-add guard
`v < 65535 - step` still passes at the 100th update, so saturation to
0xffff only happens on the 101st). -/
theorem updateMx_hundred_counterexample :
    updateMxIter 655 true 100 0 ≠ 65535 := by
  rw [updateMxIter_on 655 (by norm_num) 100 0 (by norm_num)]
  norm_num

/-- C2 amended: 100 consecutive accepted ON updates with step 655
bring the counter from 0 to exactly 65500 (saturation at 65535 occurs
on the 101st update), and from 65500 exactly 100 consecutive accepted
OFF updates with the same step return it to exactly 0. -/
theorem updateMx_hundred :
    updateMxIter 655 true 100 0 = 65500 ∧
    updateMxIter 655 true 101 0 = 65535 ∧
    updateMxIter 655 false 100 65500 = 0 := by
  have h100 : updateMxIter 655 true 100 0 = 65500 := by
    rw [updateMxIter_on 655 (by norm_num) 100 0 (by norm_num)]
  refine ⟨h100, ?_, ?_⟩
  · show updateMx (updateMxIter 655 true 100 0) true 655 = 65535
    rw [h100, updateMx, if_pos rfl, if_neg (by norm_num)]
  · show updateMx (updateMxIter 655 false 99 65500) false 655 = 0
    rw [updateMxIter_off 655 99 65500 (by norm_num), updateMx,
      if_neg (by simp), if_neg (by norm_num)]

/-- C9: a lamp whose counter is already saturated in the direction of
its row bit is left unchanged by a further application of the
integrator update for the same (column, row mask) sample: `updateCol`
keeps a counter at 65535 when the row bit commands ON, and at 0 when
the row bit commands OFF, for any glow step. -/
theorem updateCol_saturated_idempotent
    (steps m : Nat → Nat → Nat) (col rowMask row : Nat)
    (hcol : col < 8) (hrow : row < 8) :
    (rowMask.testBit row = true → m col row = 65535 →
      updateCol steps m col rowMask col row = 65535) ∧
    (rowMask.testBit row = false → m col row = 0 →
      updateCol steps m col rowMask col row = 0) := by
  have happ : updateCol steps m col rowMask col row
      = updateMx (m col row) (rowMask.testBit row) (steps col row) := by
    rw [updateCol, if_neg (by omega)]
    exact if_pos ⟨rfl, hrow⟩
  constructor
  · intro hbit hsat
    rw [happ, hbit, hsat, updateMx, if_pos rfl, if_neg (by omega)]
  · intro hbit hsat
    rw [happ, hbit, hsat]
    simp [updateMx]

/-- C9 witness: lamp (0,0) saturated at 65535 with its row bit ON, and
lamp (2,3) at 0 with its row bit OFF, are both left unchanged. -/
theorem updateCol_saturated_idempotent_witness :
    updateCol (fun _ _ => 655) (fun _ _ => 65535) 0 0x01 0 0 = 65535 ∧
    updateCol (fun _ _ => 655) (fun _ _ => 0) 2 0x00 2 3 = 0 :=
  ⟨(updateCol_saturated_idempotent (fun _ _ => 655) (fun _ _ => 65535)
      0 0x01 0 (by norm_num) (by norm_num)).1 (by decide) rfl,
   (updateCol_saturated_idempotent (fun _ _ => 655) (fun _ _ => 0)
      2 0x00 3 (by norm_num) (by norm_num)).2 (by decide) rfl⟩

set_option maxRecDepth 2000 in
/-- C5: the column decode maps each of the 8 one-hot masks to its
column index, and maps every other 8-bit mask (0x00 and any mask with
two or more bits set included) to no valid column. -/
theorem decodeCol_one_hot :
    (∀ k, k < 8 → decodeCol (2 ^ k) = some k) ∧
    (∀ mask, mask < 256 → (∀ k, k < 8 → mask ≠ 2 ^ k) →
      decodeCol mask = none) := by
  constructor
  · decide
  · decide

/-- C5 witness: the one-hot mask `0x08` decodes to column 3, and the
two-bit mask `0x03` and the empty mask `0x00` decode to no column. -/
theorem decodeCol_one_hot_witness :
    decodeCol 0x08 = some 3 ∧ decodeCol 0x03 = none ∧ decodeCol 0x00 = none :=
  ⟨decodeCol_one_hot.1 3 (by norm_num),
   decodeCol_one_hot.2 0x03 (by norm_num) (by decide),
   decodeCol_one_hot.2 0x00 (by norm_num) (by decide)⟩

/-- C6: on any tick whose sampled frame is judged invalid — the column
mask does not decode as one-hot, or the debounce/consistency check
fails — the whole lamp matrix is left exactly as it was before the
tick. -/
theorem tick_invalid_keeps_matrix
    (steps : Nat → Nat → Nat) (s : TickState) (inData : Nat)
    (h : (decodeCol ((inData >>> 8) % 256)).isSome = false ∨
      (tickValid s.vs ((inData >>> 8) % 256) (255 - inData % 256)).1 = false) :
    (tick steps s inData).mx = s.mx := by
  rcases h with h | h <;> simp [tick, h]

/-- C6 witness: a frame with two column bits set (raw sample 0x0300)
leaves a concrete matrix untouched. -/
theorem tick_invalid_keeps_matrix_witness :
    (tick (fun _ _ => 655) ⟨fun c r => c * 8 + r, ⟨0, 0, 0, 0⟩⟩ 0x0300).mx
      = (fun c r => c * 8 + r) :=
  tick_invalid_keeps_matrix (fun _ _ => 655)
    ⟨fun c r => c * 8 + r, ⟨0, 0, 0, 0⟩⟩ 0x0300 (Or.inl (by decide))

/-- Projection: the verdict of a full validator tick is the verdict
of `updateValid`. -/
lemma tickValid_fst (s : VState) (c r : Nat) :
    (tickValid s c r).1 = (updateValid s c r).1 := rfl

/-- Normal form of the `updateValid` verdict: the sample is accepted
iff its column mask differs from the last-accepted one and the updated
consistency counter reaches the threshold. -/
lemma updateValid_fst (s : VState) (c r : Nat) :
    (updateValid s c r).1
      = (decide (c ≠ s.lastUpd) &&
         decide (SINGLE_UPDATE_CONS - 1 ≤
           (if c ≠ s.lastCol ∨ r ≠ s.lastRow then 0
            else if s.cons < 255 then s.cons + 1 else s.cons))) := by
  simp only [updateValid]
  by_cases h1 : c ≠ s.lastUpd
  · rw [if_pos h1, decide_eq_true h1, Bool.true_and]
    by_cases h2 : SINGLE_UPDATE_CONS - 1 ≤
        (if c ≠ s.lastCol ∨ r ≠ s.lastRow then 0
         else if s.cons < 255 then s.cons + 1 else s.cons)
    · rw [if_pos h2, decide_eq_true h2]
    · rw [if_neg h2]
      simp [h2]
  · rw [if_neg h1]
    simp [h1]

/-- C3 counterexample: the input sequence that sends (0x01, 0x00)
twice and then (0x01, 0xFF) forever locks the validator out.  The
first pair is accepted at tick 2, which records 0x01 as the
last-accepted column mask; from then on every (0x01, 0xFF) sample is
rejected by the already-handled test even though ticks 3 and 4 (and
all later ticks) carry identical consecutive samples, and the
validator state after tick 3 is a fixed point of further (0x01, 0xFF)
ticks, so that sample is never accepted at any later tick either. -/
theorem validator_lockout_counterexample :
    (runValid ⟨0, 0, 0, 0⟩ [(1, 0), (1, 0), (1, 255), (1, 255)]).1
        = [false, true, false, false] ∧
    (runValid ⟨0, 0, 0, 0⟩ [(1, 0), (1, 0), (1, 255), (1, 255)]).2
        = ⟨1, 1, 1, 255⟩ ∧
    accept ⟨1, 1, 1, 255⟩ 1 255 = false ∧
    tickValid ⟨1, 1, 1, 255⟩ 1 255 = (false, ⟨1, 1, 1, 255⟩) := by
  refine ⟨by decide, by decide, by decide, by decide⟩

/-- C3 amended: (a) any sample that differs from its immediate
predecessor — a single-tick glitch in particular — is never accepted,
so it never reaches the brightness integrator; (b) two consecutive
ticks carrying identical samples with a one-hot column mask are
accepted at the second tick, provided that column mask differs from
the validator's last-accepted column mask at that point (if it equals
the last-accepted mask, the sample is rejected by the already-handled
test for as long as the mask does not change, so acceptance is not
guaranteed for every input sequence). -/
theorem validator_debounce
    (s : VState) (c1 r1 c2 r2 c r : Nat) :
    ((c1, r1) ≠ (c2, r2) →
      accept (tickValid s c1 r1).2 c2 r2 = false) ∧
    ((decodeCol c).isSome = true →
      c ≠ ((tickValid s c r).2).lastUpd →
      accept ((tickValid s c r).2) c r = true) := by
  constructor
  · intro hne
    have hmask : (tickValid s c1 r1).2.lastCol = c1 := rfl
    have hrow : (tickValid s c1 r1).2.lastRow = r1 := rfl
    have hd : c2 ≠ c1 ∨ r2 ≠ r1 := by
      by_contra hboth
      push_neg at hboth
      exact hne (by rw [hboth.1, hboth.2])
    rw [accept, tickValid_fst, updateValid_fst, hmask, hrow,
      if_pos hd]
    simp [SINGLE_UPDATE_CONS]
  · intro hdec hupd
    have hmask : (tickValid s c r).2.lastCol = c := rfl
    have hrow : (tickValid s c r).2.lastRow = r := rfl
    rw [accept, tickValid_fst, updateValid_fst, hmask, hrow,
      if_neg (by tauto)]
    have hcons : SINGLE_UPDATE_CONS - 1 ≤
        (if (tickValid s c r).2.cons < 255 then (tickValid s c r).2.cons + 1
         else (tickValid s c r).2.cons) := by
      rw [SINGLE_UPDATE_CONS]
      split <;> omega
    rw [hdec, decide_eq_true hupd, decide_eq_true hcons]
    rfl

/-- C3 witness: a changed sample at tick 2 is rejected, and a
repeated one-hot sample whose column is not the last-accepted one is
accepted at its second tick. -/
theorem validator_debounce_witness :
    accept (tickValid ⟨0, 0, 0, 0⟩ 1 0).2 2 0 = false ∧
    accept ((tickValid ⟨0, 0, 0, 0⟩ 1 5).2) 1 5 = true :=
  ⟨(validator_debounce ⟨0, 0, 0, 0⟩ 1 0 2 0 1 5).1 (by decide),
   (validator_debounce ⟨0, 0, 0, 0⟩ 1 0 2 0 1 5).2 (by decide) (by decide)⟩

/-- The clamped sub-cycle threshold in `driveLampMatrix` is the
minimum of the scaled counter and the configured maximum. -/
lemma driveLampOn_eq_le (N v m c : Nat) (hv : 1 ≤ v) :
    driveLampOn N v m c = decide (c ≤ min (v / (65536 / N)) m) := by
  simp only [driveLampOn]
  rw [if_neg (by omega)]
  have hmin : (if m < v / (65536 / N) then m else v / (65536 / N))
      = min (v / (65536 / N)) m := by
    split <;> omega
  rw [hmin]

/-- C1 counterexample: for the counter value V = 0 (with maximum
subcycle 7 and N = 8) the lamp is ON in 0 sub-cycles, not in
`min(V / (65536 / N), M) + 1 = 1` of them as the claim states for
every V. -/
theorem driveLampOnCount_zero_counterexample :
    driveLampOnCount 8 0 7 ≠ min (min (0 / (65536 / 8)) 7 + 1) 8 := by
  decide

/-- C1 amended: in afterglow mode with N sub-cycles per window
(N = ORIG_CYCLES_A = 8 or N = ORIG_CYCLES_B = 4 for the two timing
modes), a lamp with nonzero brightness counter V and configured
max-subcycle M is driven ON in exactly
`min (min (V / (65536 / N)) M + 1) N` of the N sub-cycles — i.e. in
`min(V / (65536 / N), M) + 1` of them, clamped to at most N — while a
lamp with V = 0 is ON in none of them. -/
theorem driveLampOnCount_formula (N v m : Nat)
    (hN : N = ORIG_CYCLES_A ∨ N = ORIG_CYCLES_B) :
    (1 ≤ v → driveLampOnCount N v m
      = min (min (v / (65536 / N)) m + 1) N) ∧
    (v = 0 → driveLampOnCount N v m = 0) := by
  constructor
  · intro hv
    rw [driveLampOnCount,
      List.countP_congr (fun c _ => by rw [driveLampOn_eq_le N v m c hv]),
      countP_range_le]
  · intro hv
    subst hv
    simp [driveLampOnCount, driveLampOn]

/-- C1 witness: in timing mode A (N = 8) a counter of 30000 with
max-subcycle 7 lights the lamp in `min(min(30000 / 8192, 7) + 1, 8)`
sub-cycles, and a zero counter lights it in none. -/
theorem driveLampOnCount_formula_witness :
    driveLampOnCount 8 30000 7 = min (min (30000 / (65536 / 8)) 7 + 1) 8 ∧
    driveLampOnCount 8 0 5 = 0 :=
  ⟨(driveLampOnCount_formula 8 30000 7 (Or.inl rfl)).1 (by norm_num),
   (driveLampOnCount_formula 8 0 5 (Or.inl rfl)).2 rfl⟩

/-- C10: for every nonzero glow-duration code d the stored glow step
is `(65535 / ((d * 10 * 1000) / 2000) * 8) mod 2^16` (the
multiplication by NUM_COL = 8 happens in 16-bit unsigned arithmetic),
and the wrap is real: at d = 1 the mathematical product
`65535 / 5 * 8 = 104856` exceeds 65535, so the stored step 39320 is
smaller than the step 52424 stored for the longer duration d = 2 — a
shorter configured glow duration yields a slower fade. -/
theorem glowStep_wrap :
    (∀ d, 1 ≤ d →
      glowStep d = 65535 / (d * GLOWDUR_CFG_SCALE * 1000 / ORIG_INT)
        * NUM_COL % 65536) ∧
    65535 / (1 * GLOWDUR_CFG_SCALE * 1000 / ORIG_INT) * NUM_COL > 65535 ∧
    glowStep 1 = 39320 ∧
    glowStep 2 = 52424 ∧
    glowStep 1 < glowStep 2 := by
  refine ⟨fun d hd => ?_, by decide, by decide, by decide, by decide⟩
  rw [glowStep, if_pos]
  rw [GLOWDUR_CFG_SCALE]
  omega

/-- C10 witness: the formula applies at the glow-duration code d = 3
(30 ms), where no wrap occurs and the stored step is 34952. -/
theorem glowStep_wrap_witness :
    glowStep 3 = 65535 / (3 * GLOWDUR_CFG_SCALE * 1000 / ORIG_INT)
      * NUM_COL % 65536 ∧
    glowStep 3 = 34952 :=
  ⟨glowStep_wrap.1 3 (by norm_num), by decide⟩

/-- Splitting one 6-byte chunk off a zero-filled CRC computation. -/
lemma crc_chunk_step (a b k : Nat)
    (h : List.foldl crcByte a (List.replicate 6 0) = b) :
    List.foldl crcByte a (List.replicate (6 + k) 0)
      = List.foldl crcByte b (List.replicate k 0) := by
  rw [List.replicate_add, List.foldl_append, h]

set_option maxRecDepth 2500 in
/-- CRC32 of the 132 zero bytes that precede the checksum field in an
all-zero configuration record, evaluated in 6-byte chunks. -/
lemma crcZeros132 : calculateCRC32 (List.replicate 132 0) = 2271112796 := by
  have h1 : List.foldl crcByte 4294967295 (List.replicate 6 0)
      = 981122162 := by decide
  have h2 : List.foldl crcByte 981122162 (List.replicate 6 0)
      = 161240097 := by decide
  have h3 : List.foldl crcByte 161240097 (List.replicate 6 0)
      = 1292642073 := by decide
  have h4 : List.foldl crcByte 1292642073 (List.replicate 6 0)
      = 4222385210 := by decide
  have h5 : List.foldl crcByte 4222385210 (List.replicate 6 0)
      = 1384374271 := by decide
  have h6 : List.foldl crcByte 1384374271 (List.replicate 6 0)
      = 1420989097 := by decide
  have h7 : List.foldl crcByte 1420989097 (List.replicate 6 0)
      = 552274392 := by decide
  have h8 : List.foldl crcByte 552274392 (List.replicate 6 0)
      = 1446178480 := by decide
  have h9 : List.foldl crcByte 1446178480 (List.replicate 6 0)
      = 1078540883 := by decide
  have h10 : List.foldl crcByte 1078540883 (List.replicate 6 0)
      = 4017010655 := by decide
  have h11 : List.foldl crcByte 4017010655 (List.replicate 6 0)
      = 1486651847 := by decide
  have h12 : List.foldl crcByte 1486651847 (List.replicate 6 0)
      = 3038952463 := by decide
  have h13 : List.foldl crcByte 3038952463 (List.replicate 6 0)
      = 2834640637 := by decide
  have h14 : List.foldl crcByte 2834640637 (List.replicate 6 0)
      = 2443758801 := by decide
  have h15 : List.foldl crcByte 2443758801 (List.replicate 6 0)
      = 863994489 := by decide
  have h16 : List.foldl crcByte 863994489 (List.replicate 6 0)
      = 2321141922 := by decide
  have h17 : List.foldl crcByte 2321141922 (List.replicate 6 0)
      = 2469670079 := by decide
  have h18 : List.foldl crcByte 2469670079 (List.replicate 6 0)
      = 809550095 := by decide
  have h19 : List.foldl crcByte 809550095 (List.replicate 6 0)
      = 2023707874 := by decide
  have h20 : List.foldl crcByte 2023707874 (List.replicate 6 0)
      = 463553891 := by decide
  have h21 : List.foldl crcByte 463553891 (List.replicate 6 0)
      = 995742895 := by decide
  have h22 : List.foldl crcByte 995742895 (List.replicate 6 0)
      = 2271112796 := by decide
  have e1 : List.foldl crcByte 4294967295 (List.replicate 132 0)
      = List.foldl crcByte 981122162 (List.replicate 126 0) :=
    crc_chunk_step _ _ 126 h1
  have e2 : List.foldl crcByte 981122162 (List.replicate 126 0)
      = List.foldl crcByte 161240097 (List.replicate 120 0) :=
    crc_chunk_step _ _ 120 h2
  have e3 : List.foldl crcByte 161240097 (List.replicate 120 0)
      = List.foldl crcByte 1292642073 (List.replicate 114 0) :=
    crc_chunk_step _ _ 114 h3
  have e4 : List.foldl crcByte 1292642073 (List.replicate 114 0)
      = List.foldl crcByte 4222385210 (List.replicate 108 0) :=
    crc_chunk_step _ _ 108 h4
  have e5 : List.foldl crcByte 4222385210 (List.replicate 108 0)
      = List.foldl crcByte 1384374271 (List.replicate 102 0) :=
    crc_chunk_step _ _ 102 h5
  have e6 : List.foldl crcByte 1384374271 (List.replicate 102 0)
      = List.foldl crcByte 1420989097 (List.replicate 96 0) :=
    crc_chunk_step _ _ 96 h6
  have e7 : List.foldl crcByte 1420989097 (List.replicate 96 0)
      = List.foldl crcByte 552274392 (List.replicate 90 0) :=
    crc_chunk_step _ _ 90 h7
  have e8 : List.foldl crcByte 552274392 (List.replicate 90 0)
      = List.foldl crcByte 1446178480 (List.replicate 84 0) :=
    crc_chunk_step _ _ 84 h8
  have e9 : List.foldl crcByte 1446178480 (List.replicate 84 0)
      = List.foldl crcByte 1078540883 (List.replicate 78 0) :=
    crc_chunk_step _ _ 78 h9
  have e10 : List.foldl crcByte 1078540883 (List.replicate 78 0)
      = List.foldl crcByte 4017010655 (List.replicate 72 0) :=
    crc_chunk_step _ _ 72 h10
  have e11 : List.foldl crcByte 4017010655 (List.replicate 72 0)
      = List.foldl crcByte 1486651847 (List.replicate 66 0) :=
    crc_chunk_step _ _ 66 h11
  have e12 : List.foldl crcByte 1486651847 (List.replicate 66 0)
      = List.foldl crcByte 3038952463 (List.replicate 60 0) :=
    crc_chunk_step _ _ 60 h12
  have e13 : List.foldl crcByte 3038952463 (List.replicate 60 0)
      = List.foldl crcByte 2834640637 (List.replicate 54 0) :=
    crc_chunk_step _ _ 54 h13
  have e14 : List.foldl crcByte 2834640637 (List.replicate 54 0)
      = List.foldl crcByte 2443758801 (List.replicate 48 0) :=
    crc_chunk_step _ _ 48 h14
  have e15 : List.foldl crcByte 2443758801 (List.replicate 48 0)
      = List.foldl crcByte 863994489 (List.replicate 42 0) :=
    crc_chunk_step _ _ 42 h15
  have e16 : List.foldl crcByte 863994489 (List.replicate 42 0)
      = List.foldl crcByte 2321141922 (List.replicate 36 0) :=
    crc_chunk_step _ _ 36 h16
  have e17 : List.foldl crcByte 2321141922 (List.replicate 36 0)
      = List.foldl crcByte 2469670079 (List.replicate 30 0) :=
    crc_chunk_step _ _ 30 h17
  have e18 : List.foldl crcByte 2469670079 (List.replicate 30 0)
      = List.foldl crcByte 809550095 (List.replicate 24 0) :=
    crc_chunk_step _ _ 24 h18
  have e19 : List.foldl crcByte 809550095 (List.replicate 24 0)
      = List.foldl crcByte 2023707874 (List.replicate 18 0) :=
    crc_chunk_step _ _ 18 h19
  have e20 : List.foldl crcByte 2023707874 (List.replicate 18 0)
      = List.foldl crcByte 463553891 (List.replicate 12 0) :=
    crc_chunk_step _ _ 12 h20
  have e21 : List.foldl crcByte 463553891 (List.replicate 12 0)
      = List.foldl crcByte 995742895 (List.replicate 6 0) :=
    crc_chunk_step _ _ 6 h21
  rw [calculateCRC32, e1, e2, e3, e4, e5, e6, e7, e8, e9, e10, e11, e12, e13, e14, e15, e16, e17, e18, e19, e20, e21]
  exact h22

/-- C8: if the configuration record loaded from EEPROM at startup has
a wrong version or a checksum that does not match, the compiled-in
default configuration — correct version, self-consistent checksum,
glow duration 14 (140 ms / scale 10) and maximum brightness 7 for all
64 lamps — is both made active and written back to EEPROM. -/
theorem startup_default_on_invalid (e : AFTERGLOW_CFG_t)
    (h : e.version ≠ AFTERGLOW_CFG_VERSION ∨
      calculateCRC32 (cfgBytes e) ≠ e.crc) :
    startup e = (setDefaultCfg, setDefaultCfg) ∧
    setDefaultCfg.version = AFTERGLOW_CFG_VERSION ∧
    calculateCRC32 (cfgBytes setDefaultCfg) = setDefaultCfg.crc ∧
    setDefaultCfg.lampGlowDur = List.replicate 64 14 ∧
    setDefaultCfg.lampBrightness = List.replicate 64 7 := by
  have hvalid : loadCfgValid e = false := by
    rw [loadCfgValid]
    rcases h with h | h <;> simp [h]
  have hcrc : calculateCRC32 (cfgBytes setDefaultCfg) = setDefaultCfg.crc := by
    have h1 : setDefaultCfg.crc = calculateCRC32 (cfgBytes defaultCfgBase) := by
      rw [setDefaultCfg]
    have h2 : cfgBytes setDefaultCfg = cfgBytes defaultCfgBase := by
      rw [setDefaultCfg]
      simp [cfgBytes]
    rw [h1, h2]
  refine ⟨by simp [startup, hvalid], ?_, hcrc, ?_, ?_⟩
  · rw [setDefaultCfg]
    simp [defaultCfgBase]
  · rw [setDefaultCfg, defaultCfgBase]
    simp [DEFAULT_GLOWDUR, GLOWDUR_CFG_SCALE]
  · rw [setDefaultCfg, defaultCfgBase]
    simp [DEFAULT_BRIGHTNESS]

/-- C8 witness: a record equal to the default one except for a stale
version field 0 is replaced by the default configuration in RAM and in
EEPROM. -/
theorem startup_default_on_invalid_witness :
    startup { setDefaultCfg with version := 0 }
      = (setDefaultCfg, setDefaultCfg) :=
  (startup_default_on_invalid { setDefaultCfg with version := 0 }
    (Or.inl (by decide))).1

/-- C7 counterexample: a configuration-write exchange in which the
sender provides no bytes at all (a short read) never completes — the
receive loop has no timeout and keeps waiting — so no NACK (nor any
reply) is ever sent, contrary to the claim that a short read is
answered with the negative-acknowledge string. -/
theorem receiveCfg_short_read_counterexample :
    receiveCfg true ⟨setDefaultCfg, [], [], setDefaultCfg⟩ [] = none := rfl

/-- C7 amended: a live configuration write that delivers a full-size
record with a mismatching checksum leaves the active configuration,
the derived tables and the EEPROM completely unchanged and sends the
negative-acknowledge string; a record with a matching checksum is
installed (with freshly derived tables, and saved to EEPROM) and
acknowledged; but a byte stream shorter than the 136-byte record makes
the receive loop wait forever, so the configuration is left unchanged
without any NACK being sent. -/
theorem receiveCfg_behaviour (modeA : Bool) (st : SysState)
    (stream : List Nat) :
    (stream.length < 136 → receiveCfg modeA st stream = none) ∧
    (136 ≤ stream.length →
      calculateCRC32 ((stream.take 136).take 132)
          ≠ (parseCfg (stream.take 136)).crc →
      receiveCfg modeA st stream = some (st, AG_CMD_NACK)) ∧
    (136 ≤ stream.length →
      calculateCRC32 ((stream.take 136).take 132)
          = (parseCfg (stream.take 136)).crc →
      receiveCfg modeA st stream
        = some ({ sCfg := parseCfg (stream.take 136)
                  sGlowSteps := (applyCfgTables modeA
                    (parseCfg (stream.take 136)).lampGlowDur
                    (parseCfg (stream.take 136)).lampBrightness).1
                  sMaxSubcycle := (applyCfgTables modeA
                    (parseCfg (stream.take 136)).lampGlowDur
                    (parseCfg (stream.take 136)).lampBrightness).2
                  eeprom := parseCfg (stream.take 136) },
                AG_CMD_ACK)) := by
  refine ⟨fun h => ?_, fun h hcrc => ?_, fun h hcrc => ?_⟩
  · simp only [receiveCfg]
    rw [if_pos h]
  · simp only [receiveCfg]
    rw [if_neg (show ¬ stream.length < 136 by omega), if_neg hcrc]
  · simp only [receiveCfg]
    rw [if_neg (show ¬ stream.length < 136 by omega), if_pos hcrc]

set_option maxRecDepth 2000 in
/-- C7 witness: a full-size all-zero record has checksum field 0 but
CRC32 2271112796 over its payload, so it is rejected: the state is
returned unchanged together with the NACK string. -/
theorem receiveCfg_behaviour_witness :
    receiveCfg true ⟨setDefaultCfg, [], [], setDefaultCfg⟩
        (List.replicate 136 0)
      = some (⟨setDefaultCfg, [], [], setDefaultCfg⟩, AG_CMD_NACK) :=
  (receiveCfg_behaviour true ⟨setDefaultCfg, [], [], setDefaultCfg⟩
      (List.replicate 136 0)).2.1
    (by simp)
    (by
      have h136 : (List.replicate 136 (0 : Nat)).take 136
          = List.replicate 136 0 := by
        rw [List.take_replicate]
        norm_num
      have h132 : (List.replicate 136 (0 : Nat)).take 132
          = List.replicate 132 0 := by
        rw [List.take_replicate]
        norm_num
      rw [h136, h132, crcZeros132]
      have hc : (parseCfg (List.replicate 136 0)).crc = 0 := by decide
      rw [hc]
      norm_num)
